import Mathlib

/-!
Verification of the coordinate-axis check of the fbx-sanitizer repository
(src/fbx-sanitizer/src/checks/correct_coordinate_axis.rs), as a shallow
embedding in Lean 4.

Machine integers (Rust i32 / i8) are modelled as Int, with the single
narrowing cast `as i8` made explicit as reduction modulo 2^8 into the
signed range [-128, 128).  Rust panics are modelled as the `none` branch
of an Option (for the letter-rendering helpers) and as a dedicated
`VerifyResult.panic` outcome for the public entry point.  Fallible Rust
code returning Result/Option is modelled with Except-like inductives and
Option respectively.
-/

namespace Fbx

/-- Model of the external fbxcel-dom attribute value: values in a
property's value part carry a runtime type tag.  The source inspects only
the `I32` tag; every other tag behaves identically (it falls into the
catch-all branch), so the remaining tags are collapsed into
representatives `I64` and `other`. -/
inductive AttributeValue where
  | I32 (v : Int)
  | I64 (v : Int)
  | other
deriving DecidableEq

/-- Model of the external fbxcel-dom property handle: the source only uses
`value_part()`, the ordered sequence of typed attribute values. -/
structure PropertyHandle where
  value_part : List AttributeValue

/-- Model of the external fbxcel-dom global-settings object: a property
bag, accessed by name via `get_property`.  Modelled as an association
list with first-match lookup. -/
structure GlobalSettings where
  raw_properties : List (String × PropertyHandle)

/-- Model of `raw_properties().get_property(name)`: optional lookup by
exact name. -/
def get_property (gs : GlobalSettings) (name : String) : Option PropertyHandle :=
  List.lookup name gs.raw_properties

/-- Modelled from the spec: the application identity is "an external
enumerated value (e.g., one of a closed set of known authoring tools, or
unknown)", produced by a helper (`crate::utils::ApplicationName`) whose
declaration is not under src/.  The source matches the `Max` and
`Blender` variants and a catch-all; `Maya` stands for the other
recognized tools (the source comment cites Maya). -/
inductive ApplicationName where
  | Max
  | Blender
  | Maya
deriving DecidableEq

/-- Model of the parsed document: the source only reads its optional
global settings and (through the external `get_application_name` helper)
its authoring-application identity. -/
structure Document where
  global_settings : Option GlobalSettings
  application_name : Option ApplicationName

/-- Modelled from the spec: `get_application_name` (in `crate::utils`,
not under src/) is the external application-identifier collaborator;
"given a document, yields an optional value from a closed enumeration of
recognized authoring-tool identities". -/
def get_application_name (doc : Document) : Option ApplicationName :=
  doc.application_name

/-- Rust `Debug` rendering of an `ApplicationName` (derived `Debug`
prints the bare variant name). -/
def debug_application_name : ApplicationName → String
  | .Max => "Max"
  | .Blender => "Blender"
  | .Maya => "Maya"

/-- Rust `Debug` rendering of an `Option<ApplicationName>` as used by the
`{:?}` format specifier in `verify`. -/
def debug_opt_application_name : Option ApplicationName → String
  | none => "None"
  | some a => "Some(" ++ debug_application_name a ++ ")"

/-- `cgmath::Vector3<i8>`, with i8 components modelled as Int (every
component the program ever builds lies in [-128, 128)). -/
structure Vector3 where
  x : Int
  y : Int
  z : Int
deriving DecidableEq

/-- The Rust cast `v as i8` on an i32 value: two's-complement truncation,
i.e. reduction modulo 2^8 into the signed range [-128, 128). -/
def as_i8 (v : Int) : Int :=
  if 128 ≤ v % 256 then v % 256 - 256 else v % 256

/-- `struct CoordinateAxis { up, front, coord : Vector3<i8> }` with
derived structural equality. -/
structure CoordinateAxis where
  up : Vector3
  front : Vector3
  coord : Vector3
deriving DecidableEq

/-- The inner `axis_letter` function of `CoordinateAxis::display_triplet`:
an ordered match against the six signed unit vectors.  The Rust
catch-all branch panics ("Invalid Coordinate System"); the panic is
modelled as `none`. -/
def axis_letter (v : Vector3) : Option String :=
  if v = ⟨1, 0, 0⟩ then some "+X"
  else if v = ⟨-1, 0, 0⟩ then some "-X"
  else if v = ⟨0, 1, 0⟩ then some "+Y"
  else if v = ⟨0, -1, 0⟩ then some "-Y"
  else if v = ⟨0, 0, 1⟩ then some "+Z"
  else if v = ⟨0, 0, -1⟩ then some "-Z"
  else none

/-- `CoordinateAxis::display_triplet`: renders front, up, coord (in that
evaluation order, as in the source) and formats
`"Front:{front},Up:{up},Coord:{coord}"`; `none` models the panic of
`axis_letter` propagating. -/
def display_triplet (c : CoordinateAxis) : Option String :=
  match axis_letter c.front with
  | none => none
  | some front =>
    match axis_letter c.up with
    | none => none
    | some up =>
      match axis_letter c.coord with
      | none => none
      | some coord => some ("Front:" ++ front ++ ",Up:" ++ up ++ ",Coord:" ++ coord)

/-- `coordinate_axis_for_software`: the per-application expected-basis
policy table. -/
def coordinate_axis_for_software (application_name : Option ApplicationName) :
    CoordinateAxis :=
  match application_name with
  | some .Max =>
    { up := ⟨0, 0, 1⟩, front := ⟨0, -1, 0⟩, coord := ⟨1, 0, 0⟩ }
  | some .Blender =>
    { up := ⟨0, 0, 1⟩, front := ⟨0, 1, 0⟩, coord := ⟨-1, 0, 0⟩ }
  | _ =>
    { up := ⟨0, 1, 0⟩, front := ⟨0, 0, 1⟩, coord := ⟨1, 0, 0⟩ }

/-- `get_property(name)?.value_part().get(0)?`: the first attribute value
of the property named `name`, when both exist. -/
def first_attr (gs : GlobalSettings) (name : String) : Option AttributeValue :=
  (get_property gs name).bind (fun p => p.value_part.get? 0)

/-- `get_axis`: reads the axis-index property `name` and the sign
property `name ++ "Sign"`; both must hold an I32 as their first value
element, the index must be 0, 1 or 2, and the sign is narrowed with
`as i8` into the selected dimension. -/
def get_axis (gs : GlobalSettings) (name : String) : Option Vector3 :=
  match first_attr gs name with
  | some (.I32 axis) =>
    match first_attr gs (name ++ "Sign") with
    | some (.I32 sign) =>
      if axis = 0 then some ⟨as_i8 sign, 0, 0⟩
      else if axis = 1 then some ⟨0, as_i8 sign, 0⟩
      else if axis = 2 then some ⟨0, 0, as_i8 sign⟩
      else none
    | _ => none
  | _ => none

/-- `get_coordinate_axis`: requires global settings, then the three axis
extractions for "UpAxis", "FrontAxis", "CoordAxis"; each `?` is a match
returning `none`. -/
def get_coordinate_axis (doc : Document) : Option CoordinateAxis :=
  match doc.global_settings with
  | none => none
  | some global_settings =>
    match get_axis global_settings "UpAxis" with
    | none => none
    | some up_axis =>
      match get_axis global_settings "FrontAxis" with
      | none => none
      | some front_axis =>
        match get_axis global_settings "CoordAxis" with
        | none => none
        | some coord_axis =>
          some { up := up_axis, front := front_axis, coord := coord_axis }

/-- Outcome of `verify`: `ok` for `Ok(vec)`, `err` for the anyhow error,
`panic` for an uncaught Rust panic raised while formatting. -/
inductive VerifyResult where
  | ok (diagnostics : List String)
  | err (msg : String)
  | panic (msg : String)
deriving DecidableEq

/-- `verify`: extracts the basis (error if absent), looks up the expected
basis for the identified application, and on mismatch formats the single
diagnostic `"File has incorrect Coordinate Axis. Expected [..] actual
[..]. [..]"`, evaluating the expected triplet, then the actual triplet,
then the application debug text, as `format!` does. -/
def verify (doc : Document) : VerifyResult :=
  match get_coordinate_axis doc with
  | none => .err "Could not find coordinate axis."
  | some axis =>
    let application_name := get_application_name doc
    let correct := coordinate_axis_for_software application_name
    if axis ≠ correct then
      match display_triplet correct with
      | none => .panic "Invalid Coordinate System"
      | some expected_s =>
        match display_triplet axis with
        | none => .panic "Invalid Coordinate System"
        | some actual_s =>
          .ok ["File has incorrect Coordinate Axis. Expected [" ++ expected_s ++
            "] actual [" ++ actual_s ++ "]. [" ++
            debug_opt_application_name application_name ++ "]"]
    else .ok []

/-- The Axis data-model invariant of the spec: exactly one of the three
components is non-zero, and that component is +1 or -1. -/
def isUnitAxis (v : Vector3) : Prop :=
  ((v.x = 1 ∨ v.x = -1) ∧ v.y = 0 ∧ v.z = 0) ∨
  (v.x = 0 ∧ (v.y = 1 ∨ v.y = -1) ∧ v.z = 0) ∨
  (v.x = 0 ∧ v.y = 0 ∧ (v.z = 1 ∨ v.z = -1))

instance (v : Vector3) : Decidable (isUnitAxis v) := by
  unfold isUnitAxis; infer_instance

/-- Global settings of test scenario A of the spec: UpAxis=1/Sign=1,
FrontAxis=2/Sign=1, CoordAxis=0/Sign=1 (the Unity-default convention). -/
def gsA : GlobalSettings :=
  ⟨[("UpAxis", ⟨[.I32 1]⟩), ("UpAxisSign", ⟨[.I32 1]⟩),
    ("FrontAxis", ⟨[.I32 2]⟩), ("FrontAxisSign", ⟨[.I32 1]⟩),
    ("CoordAxis", ⟨[.I32 0]⟩), ("CoordAxisSign", ⟨[.I32 1]⟩)]⟩

/-- Scenario B document: scenario A settings, identified as Max. -/
def docB : Document := ⟨some gsA, some .Max⟩

/-- Scenario C settings: the "CoordAxis" property is absent (its sign
property is still present). -/
def gsC : GlobalSettings :=
  ⟨[("UpAxis", ⟨[.I32 1]⟩), ("UpAxisSign", ⟨[.I32 1]⟩),
    ("FrontAxis", ⟨[.I32 2]⟩), ("FrontAxisSign", ⟨[.I32 1]⟩),
    ("CoordAxisSign", ⟨[.I32 1]⟩)]⟩

/-- Scenario C document. -/
def docC : Document := ⟨some gsC, none⟩

/-- Settings whose UpAxisSign is 2: accepted by extraction, but the
resulting up vector (0,2,0) is not a signed unit axis. -/
def gs9 : GlobalSettings :=
  ⟨[("UpAxis", ⟨[.I32 1]⟩), ("UpAxisSign", ⟨[.I32 2]⟩),
    ("FrontAxis", ⟨[.I32 2]⟩), ("FrontAxisSign", ⟨[.I32 1]⟩),
    ("CoordAxis", ⟨[.I32 0]⟩), ("CoordAxisSign", ⟨[.I32 1]⟩)]⟩

/-- Document built on gs9, with no identified application. -/
def doc9 : Document := ⟨some gs9, none⟩

/-- Settings whose UpAxisSign is 0: extraction yields the all-zero up
vector. -/
def gs0 : GlobalSettings :=
  ⟨[("UpAxis", ⟨[.I32 0]⟩), ("UpAxisSign", ⟨[.I32 0]⟩),
    ("FrontAxis", ⟨[.I32 2]⟩), ("FrontAxisSign", ⟨[.I32 1]⟩),
    ("CoordAxis", ⟨[.I32 0]⟩), ("CoordAxisSign", ⟨[.I32 1]⟩)]⟩

/-- Document built on gs0, with no identified application. -/
def doc0 : Document := ⟨some gs0, none⟩

/-- Settings whose UpAxisSign is 256: a multiple of 256 narrows to 0. -/
def gs256 : GlobalSettings :=
  ⟨[("UpAxis", ⟨[.I32 0]⟩), ("UpAxisSign", ⟨[.I32 256]⟩)]⟩

/-- Scenario A document: scenario A settings, unidentified application. -/
def docA : Document := ⟨some gsA, none⟩

/-- C3: get_axis returns some exactly when the property named `name` and
the property named `name ++ "Sign"` both exist with an I32 first value
element and the index value under `name` is 0, 1 or 2; the index selects
the X, Y or Z dimension respectively.  Any other index, missing property
or non-I32 first value yields none (and, being a total Lean function, it
never panics). -/
theorem get_axis_characterization (gs : GlobalSettings) (name : String) :
    ((get_axis gs name).isSome ↔
      ∃ a s : Int, first_attr gs name = some (.I32 a) ∧
        first_attr gs (name ++ "Sign") = some (.I32 s) ∧
        (a = 0 ∨ a = 1 ∨ a = 2)) ∧
    ∀ s : Int, first_attr gs (name ++ "Sign") = some (.I32 s) →
      (first_attr gs name = some (.I32 0) → get_axis gs name = some ⟨as_i8 s, 0, 0⟩) ∧
      (first_attr gs name = some (.I32 1) → get_axis gs name = some ⟨0, as_i8 s, 0⟩) ∧
      (first_attr gs name = some (.I32 2) → get_axis gs name = some ⟨0, 0, as_i8 s⟩) := by
  constructor
  · constructor
    · intro h
      cases ha : first_attr gs name with
      | none => simp [get_axis, ha] at h
      | some att =>
        cases att with
        | I64 v => simp [get_axis, ha] at h
        | other => simp [get_axis, ha] at h
        | I32 a =>
          cases hs : first_attr gs (name ++ "Sign") with
          | none => simp [get_axis, ha, hs] at h
          | some att2 =>
            cases att2 with
            | I64 v => simp [get_axis, ha, hs] at h
            | other => simp [get_axis, ha, hs] at h
            | I32 s =>
              refine ⟨a, s, rfl, rfl, ?_⟩
              by_cases h0 : a = 0
              · exact Or.inl h0
              · by_cases h1 : a = 1
                · exact Or.inr (Or.inl h1)
                · by_cases h2 : a = 2
                  · exact Or.inr (Or.inr h2)
                  · simp [get_axis, ha, hs, h0, h1, h2] at h
    · rintro ⟨a, s, ha, hs, hd⟩
      rcases hd with h | h | h <;> subst h <;> simp [get_axis, ha, hs]
  · intro s hs
    refine ⟨?_, ?_, ?_⟩ <;> intro ha <;> simp [get_axis, ha, hs]

/-- Witness for C3: the FrontAxis extraction of the scenario A settings,
index 2 selecting the Z dimension. -/
theorem get_axis_characterization_witness :
    first_attr gsA ("FrontAxis" ++ "Sign") = some (.I32 1) ∧
    first_attr gsA "FrontAxis" = some (.I32 2) ∧
    get_axis gsA "FrontAxis" = some ⟨0, 0, as_i8 1⟩ :=
  ⟨rfl, rfl, ((get_axis_characterization gsA "FrontAxis").2 1 rfl).2.2 rfl⟩

/-- C4: get_coordinate_axis returns none when the document has no global
settings, and when any of the three sub-extractions fails, even if the
other two succeed; when all three succeed it returns the full basis, so
no partial basis is ever returned. -/
theorem get_coordinate_axis_characterization (doc : Document) :
    (doc.global_settings = none → get_coordinate_axis doc = none) ∧
    ∀ gs, doc.global_settings = some gs →
      ((get_axis gs "UpAxis" = none ∨ get_axis gs "FrontAxis" = none ∨
          get_axis gs "CoordAxis" = none) → get_coordinate_axis doc = none) ∧
      ∀ u f c, get_axis gs "UpAxis" = some u → get_axis gs "FrontAxis" = some f →
        get_axis gs "CoordAxis" = some c →
        get_coordinate_axis doc = some ⟨u, f, c⟩ := by
  constructor
  · intro h; simp [get_coordinate_axis, h]
  · intro gs hgs
    constructor
    · intro hfail
      cases hu : get_axis gs "UpAxis" with
      | none => simp [get_coordinate_axis, hgs, hu]
      | some u =>
        cases hf : get_axis gs "FrontAxis" with
        | none => simp [get_coordinate_axis, hgs, hu, hf]
        | some f =>
          cases hc : get_axis gs "CoordAxis" with
          | none => simp [get_coordinate_axis, hgs, hu, hf, hc]
          | some c =>
            rcases hfail with h | h | h
            · simp [h] at hu
            · simp [h] at hf
            · simp [h] at hc
    · intro u f c hu hf hc
      simp [get_coordinate_axis, hgs, hu, hf, hc]

/-- Witness for C4: scenario C settings, where UpAxis and FrontAxis
extract but CoordAxis is absent, so the whole extraction yields none. -/
theorem get_coordinate_axis_characterization_witness :
    docC.global_settings = some gsC ∧
    get_axis gsC "UpAxis" = some ⟨0, 1, 0⟩ ∧
    get_axis gsC "FrontAxis" = some ⟨0, 0, 1⟩ ∧
    get_axis gsC "CoordAxis" = none ∧
    get_coordinate_axis docC = none :=
  ⟨rfl, by decide, by decide, by decide,
    ((get_coordinate_axis_characterization docC).2 gsC rfl).1 (Or.inr (Or.inr (by decide)))⟩

/-- C5: when basis extraction yields none, verify fails with the
"Could not find coordinate axis." error and returns no diagnostic
sequence; in particular on the scenario C document, whose global
settings are present but lack the "CoordAxis" property. -/
theorem verify_missing_axis :
    (∀ doc : Document, get_coordinate_axis doc = none →
      verify doc = .err "Could not find coordinate axis.") ∧
    (docC.global_settings = some gsC ∧ get_property gsC "CoordAxis" = none ∧
      verify docC = .err "Could not find coordinate axis.") := by
  constructor
  · intro doc h; simp [verify, h]
  · exact ⟨rfl, rfl, rfl⟩

/-- Witness for C5: applied to the scenario C document. -/
theorem verify_missing_axis_witness :
    get_coordinate_axis docC = none ∧
    verify docC = .err "Could not find coordinate axis." :=
  ⟨rfl, verify_missing_axis.1 docC rfl⟩

/-- C2: the policy table maps Max to (up=+Z, front=-Y, coord=+X),
Blender to (up=+Z, front=+Y, coord=-X), and every other identity,
including the unknown identity None, to the default basis
(up=+Y, front=+Z, coord=+X); totality and purity are inherent in its
being a Lean function on the identity type. -/
theorem coordinate_axis_for_software_spec :
    coordinate_axis_for_software (some .Max) =
      { up := ⟨0, 0, 1⟩, front := ⟨0, -1, 0⟩, coord := ⟨1, 0, 0⟩ } ∧
    coordinate_axis_for_software (some .Blender) =
      { up := ⟨0, 0, 1⟩, front := ⟨0, 1, 0⟩, coord := ⟨-1, 0, 0⟩ } ∧
    ∀ app : Option ApplicationName, app ≠ some .Max → app ≠ some .Blender →
      coordinate_axis_for_software app =
        { up := ⟨0, 1, 0⟩, front := ⟨0, 0, 1⟩, coord := ⟨1, 0, 0⟩ } := by
  refine ⟨rfl, rfl, ?_⟩
  rintro (_ | a) h1 h2
  · rfl
  · cases a
    · exact absurd rfl h1
    · exact absurd rfl h2
    · rfl

/-- Witness for C2: instantiated at the unknown identity. -/
theorem coordinate_axis_for_software_spec_witness :
    (none : Option ApplicationName) ≠ some .Max ∧
    (none : Option ApplicationName) ≠ some .Blender ∧
    coordinate_axis_for_software none =
      { up := ⟨0, 1, 0⟩, front := ⟨0, 0, 1⟩, coord := ⟨1, 0, 0⟩ } :=
  ⟨by decide, by decide,
    coordinate_axis_for_software_spec.2.2 none (by decide) (by decide)⟩

/-- C7: the 32-bit sign value is narrowed by two's-complement truncation
(reduction mod 2^8 into [-128, 128), congruent mod 256 to the original)
and placed verbatim into the dimension selected by the index property,
the other two dimensions zero, with no restriction of the sign to ±1
(the sign value s is arbitrary). -/
theorem sign_narrowing_spec (gs : GlobalSettings) (name : String) (a s : Int)
    (ha : first_attr gs name = some (.I32 a))
    (hs : first_attr gs (name ++ "Sign") = some (.I32 s)) :
    (-128 ≤ as_i8 s ∧ as_i8 s < 128 ∧ as_i8 s % 256 = s % 256) ∧
    (a = 0 → get_axis gs name = some ⟨as_i8 s, 0, 0⟩) ∧
    (a = 1 → get_axis gs name = some ⟨0, as_i8 s, 0⟩) ∧
    (a = 2 → get_axis gs name = some ⟨0, 0, as_i8 s⟩) := by
  refine ⟨?_, ?_, ?_, ?_⟩
  · unfold as_i8
    split <;> omega
  all_goals intro h; subst h; simp [get_axis, ha, hs]

/-- Witness for C7: a sign value of 2 (not ±1) is accepted verbatim. -/
theorem sign_narrowing_spec_witness :
    first_attr gs9 "UpAxis" = some (.I32 1) ∧
    first_attr gs9 ("UpAxis" ++ "Sign") = some (.I32 2) ∧
    get_axis gs9 "UpAxis" = some ⟨0, as_i8 2, 0⟩ :=
  ⟨rfl, rfl, (sign_narrowing_spec gs9 "UpAxis" 1 2 rfl rfl).2.2.1 rfl⟩

/-- C9: the fatal rendering branch is reachable through verify: for the
document doc9 (UpAxisSign narrows to 2) extraction succeeds with a
non-unit up axis, the extracted basis differs from the expected basis,
and verify panics instead of returning ok or err. -/
theorem panic_reachable_through_verify :
    get_coordinate_axis doc9 = some ⟨⟨0, 2, 0⟩, ⟨0, 0, 1⟩, ⟨1, 0, 0⟩⟩ ∧
    (⟨⟨0, 2, 0⟩, ⟨0, 0, 1⟩, ⟨1, 0, 0⟩⟩ : CoordinateAxis) ≠
      coordinate_axis_for_software (get_application_name doc9) ∧
    verify doc9 = .panic "Invalid Coordinate System" := by
  refine ⟨rfl, by decide, rfl⟩

/-- The Axis invariant holds exactly of the six signed unit vectors. -/
theorem isUnitAxis_iff (v : Vector3) :
    isUnitAxis v ↔
      (v = ⟨1, 0, 0⟩ ∨ v = ⟨-1, 0, 0⟩ ∨ v = ⟨0, 1, 0⟩ ∨
        v = ⟨0, -1, 0⟩ ∨ v = ⟨0, 0, 1⟩ ∨ v = ⟨0, 0, -1⟩) := by
  obtain ⟨x, y, z⟩ := v
  simp only [isUnitAxis, Vector3.mk.injEq]
  tauto

/-- C8: every vector satisfying the Axis invariant renders to one of the
six signed-letter strings, the rendering is injective on invariant
vectors, and every vector outside the invariant hits the panic branch
(modelled as none), so under the invariant the panic is unreachable. -/
theorem axis_letter_spec :
    (∀ v, isUnitAxis v → ∃ s, axis_letter v = some s ∧
      (s = "+X" ∨ s = "-X" ∨ s = "+Y" ∨ s = "-Y" ∨ s = "+Z" ∨ s = "-Z")) ∧
    (∀ v w, isUnitAxis v → isUnitAxis w → axis_letter v = axis_letter w → v = w) ∧
    (∀ v, ¬ isUnitAxis v → axis_letter v = none) := by
  refine ⟨?_, ?_, ?_⟩
  · intro v hv
    rcases (isUnitAxis_iff v).1 hv with h | h | h | h | h | h <;> subst h
    · exact ⟨"+X", by decide, by decide⟩
    · exact ⟨"-X", by decide, by decide⟩
    · exact ⟨"+Y", by decide, by decide⟩
    · exact ⟨"-Y", by decide, by decide⟩
    · exact ⟨"+Z", by decide, by decide⟩
    · exact ⟨"-Z", by decide, by decide⟩
  · intro v w hv hw h
    rcases (isUnitAxis_iff v).1 hv with h1 | h1 | h1 | h1 | h1 | h1 <;>
      rcases (isUnitAxis_iff w).1 hw with h2 | h2 | h2 | h2 | h2 | h2 <;>
      subst h1 <;> subst h2 <;> first | rfl | exact absurd h (by decide)
  · intro v hv
    unfold axis_letter
    split_ifs with h1 h2 h3 h4 h5 h6
    · exact absurd ((isUnitAxis_iff v).2 (Or.inl h1)) hv
    · exact absurd ((isUnitAxis_iff v).2 (Or.inr (Or.inl h2))) hv
    · exact absurd ((isUnitAxis_iff v).2 (Or.inr (Or.inr (Or.inl h3)))) hv
    · exact absurd ((isUnitAxis_iff v).2 (Or.inr (Or.inr (Or.inr (Or.inl h4))))) hv
    · exact absurd ((isUnitAxis_iff v).2
        (Or.inr (Or.inr (Or.inr (Or.inr (Or.inl h5)))))) hv
    · exact absurd ((isUnitAxis_iff v).2
        (Or.inr (Or.inr (Or.inr (Or.inr (Or.inr h6)))))) hv
    · rfl

/-- Witness for C8: the invariant vector (0,0,-1) renders to a signed
letter pair. -/
theorem axis_letter_spec_witness :
    isUnitAxis ⟨0, 0, -1⟩ ∧ ∃ s, axis_letter ⟨0, 0, -1⟩ = some s ∧
      (s = "+X" ∨ s = "-X" ∨ s = "+Y" ∨ s = "-Y" ∨ s = "+Z" ∨ s = "-Z") :=
  ⟨by decide, axis_letter_spec.1 ⟨0, 0, -1⟩ (by decide)⟩

/-- C10: extraction does not enforce the single-non-zero-unit-component
invariant: a sign of 0 (or 256, a multiple of 256) yields the all-zero
vector, and get_coordinate_axis can return a basis containing it. -/
theorem extraction_allows_zero_axis :
    get_axis gs0 "UpAxis" = some ⟨0, 0, 0⟩ ∧
    get_axis gs256 "UpAxis" = some ⟨0, 0, 0⟩ ∧
    ¬ isUnitAxis ⟨0, 0, 0⟩ ∧
    get_coordinate_axis doc0 = some ⟨⟨0, 0, 0⟩, ⟨0, 0, 1⟩, ⟨1, 0, 0⟩⟩ :=
  ⟨rfl, rfl, by decide, rfl⟩

/-- Every basis the policy table produces renders to a triplet string
(all its axes are signed unit vectors). -/
theorem display_triplet_policy_some (app : Option ApplicationName) :
    (display_triplet (coordinate_axis_for_software app)).isSome := by
  rcases app with _ | a
  · decide
  · cases a <;> decide

/-- C1 counterexample: the extracted basis of doc0 differs from the
expected basis, yet verify does not return Ok with one diagnostic — it
panics while rendering the all-zero up axis. -/
theorem verify_mismatch_counterexample :
    get_coordinate_axis doc0 = some ⟨⟨0, 0, 0⟩, ⟨0, 0, 1⟩, ⟨1, 0, 0⟩⟩ ∧
    (⟨⟨0, 0, 0⟩, ⟨0, 0, 1⟩, ⟨1, 0, 0⟩⟩ : CoordinateAxis) ≠
      coordinate_axis_for_software (get_application_name doc0) ∧
    verify doc0 = .panic "Invalid Coordinate System" :=
  ⟨rfl, by decide, rfl⟩

/-- C1 (amended): when extraction succeeds and the basis equals the
expected one, verify returns Ok with no diagnostics; when it differs,
verify returns Ok with exactly one diagnostic provided the extracted
triplet renders, and panics while formatting when it does not. -/
theorem verify_ok_spec (doc : Document) (axis : CoordinateAxis)
    (h : get_coordinate_axis doc = some axis) :
    (axis = coordinate_axis_for_software (get_application_name doc) →
      verify doc = .ok []) ∧
    (axis ≠ coordinate_axis_for_software (get_application_name doc) →
      ((display_triplet axis).isSome → ∃ s, verify doc = .ok [s]) ∧
      (display_triplet axis = none →
        verify doc = .panic "Invalid Coordinate System")) := by
  constructor
  · intro he
    simp [verify, h, he]
  · intro hne
    obtain ⟨e, he⟩ := Option.isSome_iff_exists.1
      (display_triplet_policy_some (get_application_name doc))
    constructor
    · intro hsome
      obtain ⟨a, ha⟩ := Option.isSome_iff_exists.1 hsome
      refine ⟨"File has incorrect Coordinate Axis. Expected [" ++ e ++ "] actual [" ++
        a ++ "]. [" ++ debug_opt_application_name (get_application_name doc) ++ "]", ?_⟩
      simp [verify, h, hne, he, ha]
    · intro hnone
      simp [verify, h, hne, he, hnone]

/-- Witness for C1 (amended): scenario A — basis matches the default
expectation, verify passes with no diagnostics. -/
theorem verify_ok_spec_witness :
    get_coordinate_axis docA = some ⟨⟨0, 1, 0⟩, ⟨0, 0, 1⟩, ⟨1, 0, 0⟩⟩ ∧
    verify docA = .ok [] :=
  ⟨rfl, (verify_ok_spec docA ⟨⟨0, 1, 0⟩, ⟨0, 0, 1⟩, ⟨1, 0, 0⟩⟩ rfl).1 (by decide)⟩

/-- The single diagnostic verify emits on the scenario B document. -/
def scenarioB_message : String :=
  "File has incorrect Coordinate Axis. Expected [Front:-Y,Up:+Z,Coord:+X] actual [Front:+Z,Up:+Y,Coord:+X]. [Some(Max)]"

/-- Substring test on character lists: some suffix of hay starts with
needle. -/
def list_contains (needle hay : List Char) : Bool :=
  needle.isPrefixOf hay ||
    match hay with
    | [] => false
    | _ :: t => list_contains needle t

/-- C6 counterexample: the scenario B diagnostic does not contain the
claimed bracket-free substring, because the two triplets are printed
inside square brackets. -/
theorem scenarioB_substring_counterexample :
    verify docB = .ok [scenarioB_message] ∧
    list_contains "Expected Front:-Y,Up:+Z,Coord:+X actual Front:+Z,Up:+Y,Coord:+X".data
      scenarioB_message.data = false :=
  ⟨rfl, by decide⟩

/-- C6 (amended): on the scenario B document verify returns exactly one
diagnostic, containing the substring "Expected [Front:-Y,Up:+Z,Coord:+X]
actual [Front:+Z,Up:+Y,Coord:+X]" with each triplet in brackets and each
axis rendered in the order Front, Up, Coord. -/
theorem scenarioB_diagnostic :
    verify docB = .ok [scenarioB_message] ∧
    list_contains "Expected [Front:-Y,Up:+Z,Coord:+X] actual [Front:+Z,Up:+Y,Coord:+X]".data
      scenarioB_message.data = true :=
  ⟨rfl, by decide⟩

end Fbx
